import Mathlib

/-!
# Verification of the fault-signaling subsystem (libtock-rs example)

Shallow embedding of `src/src/lang_items.rs` (the panic / allocation-failure
fault entry points and their two diagnostic LED loops) and of
`src/apis/leds/src/lib.rs` (the typed LED driver binding over the syscall
command channel), together with proofs of the specification's claims.

The loop bodies, the fault-handler control flow and the LED binding are
translated directly from the Rust source.  Pieces of the repository that the
source refers to but that are not present under `src/` (the `LedDriver`
iterator, the timer's `sleep`, the executor, the debug side channel, and the
`libtock_platform` transport) are modelled from the specification; each such
definition carries a doc comment starting `Modelled from the spec:`.
-/

/-! ## Observable events at the peripheral / debug boundary -/

/-- An externally observable action issued by the fault path: an LED
activation/deactivation/toggle, a timed sleep (milliseconds), or a status
code emitted on the debug side channel. -/
inductive Event where
  | activate (unit : Nat)
  | deactivate (unit : Nat)
  | toggle (unit : Nat)
  | sleep (ms : Nat)
  | debugStatus (code : Nat)
deriving DecidableEq, Repr

/-- An event is a peripheral operation (LED command or sleep), as opposed to
debug side-channel output. -/
def Event.isPeripheralOp : Event → Bool
  | Event.debugStatus _ => false
  | _ => true

/-- State threaded through a diagnostic-loop run: the trace of events issued
so far and the number of fallible operations issued so far (used to index
the failure oracle). -/
structure RunState where
  trace : List Event
  nCalls : Nat
deriving DecidableEq, Repr

/-- The initial run state: nothing issued yet. -/
def RunState.init : RunState := ⟨[], 0⟩

/-- Modelled from the spec: issuing one fallible peripheral/debug operation.
The environment oracle `failAt` says whether the k-th issued operation
fails; the operation's event is appended to the trace either way (the call
is made, its result is merely reported). Returns the failure flag (the
`Result` the Rust caller receives) together with the new state. -/
def emit (failAt : Nat → Bool) (e : Event) (s : RunState) : Bool × RunState :=
  (failAt s.nCalls, ⟨s.trace ++ [e], s.nCalls + 1⟩)

/-! ## The two diagnostic loops, from `src/src/lang_items.rs`

`led_driver.all()` is not under `src/`; modelled from the spec
("activate every known unit (by index 0..count)") as `List.range n`. -/

/-- Modelled from the spec: the list of known LED units, by index
`0..count`, that `led_driver.all()` iterates over. -/
def ledsAll (n : Nat) : List Nat := List.range n

/-- `for led in led_driver.all() { let _ = led.on(); }` — the ALL_ON pass of
`blink_all_leds`: activate each unit, discarding each result. -/
def blinkOnPass (failAt : Nat → Bool) : List Nat → RunState → RunState
  | [], s => s
  | led :: rest, s =>
      let p := emit failAt (Event.activate led) s
      blinkOnPass failAt rest p.2

/-- `for led in led_driver.all() { let _ = led.off(); }` — the ALL_OFF pass of
`blink_all_leds`: deactivate each unit, discarding each result. -/
def blinkOffPass (failAt : Nat → Bool) : List Nat → RunState → RunState
  | [], s => s
  | led :: rest, s =>
      let p := emit failAt (Event.deactivate led) s
      blinkOffPass failAt rest p.2

/-- One iteration of the `loop { ... }` body of `blink_all_leds`: all on,
sleep 100 ms, all off, sleep 100 ms, every result discarded with `let _ =`. -/
def blinkCycleRun (failAt : Nat → Bool) (n : Nat) (s : RunState) : RunState :=
  let s1 := blinkOnPass failAt (ledsAll n) s
  let p2 := emit failAt (Event.sleep 100) s1
  let s3 := blinkOffPass failAt (ledsAll n) p2.2
  let p4 := emit failAt (Event.sleep 100) s3
  p4.2

/-- `blink_all_leds` from `lang_items.rs`, run for `fuel` iterations of its
infinite outer loop (the loop itself never exits; `fuel` bounds how far we
observe it). -/
def blink_all_leds (failAt : Nat → Bool) (n : Nat) : Nat → RunState → RunState
  | 0, s => s
  | fuel + 1, s => blink_all_leds failAt n fuel (blinkCycleRun failAt n s)

/-- The per-unit body of `cycle_all_leds`: `let _ = led.on(); let _ =
timer_driver.sleep(100ms).await; let _ = led.off();` — note: no sleep after
the `off`. -/
def cycleUnitRun (failAt : Nat → Bool) (led : Nat) (s : RunState) : RunState :=
  let p1 := emit failAt (Event.activate led) s
  let p2 := emit failAt (Event.sleep 100) p1.2
  let p3 := emit failAt (Event.deactivate led) p2.2
  p3.2

/-- `for led in led_driver.all() { ... }` — one full pass of
`cycle_all_leds` over the unit list. -/
def cyclePassRun (failAt : Nat → Bool) : List Nat → RunState → RunState
  | [], s => s
  | led :: rest, s => cyclePassRun failAt rest (cycleUnitRun failAt led s)

/-- `cycle_all_leds` from `lang_items.rs`, run for `fuel` iterations of its
infinite outer loop. -/
def cycle_all_leds (failAt : Nat → Bool) (n : Nat) : Nat → RunState → RunState
  | 0, s => s
  | fuel + 1, s => cycle_all_leds failAt n fuel (cyclePassRun failAt (ledsAll n) s)

/-! ## The fault entry points, from `src/src/lang_items.rs` -/

/-- `panic_handler`: emits status code 1 on the debug side channel
(best-effort — `dbgFails` is the emission's own failure, which the code
ignores), then probes the timer and LED drivers (`timerOk`, `ledOk` are the
probe outcomes, modelled from the spec as environment inputs), and if both
handles were obtained runs `blink_all_leds`; otherwise only the idle
`loop {}` follows, which issues nothing.  The returned list is the trace of
observable events after `fuel` loop iterations. -/
def panic_handler (dbgFails : Bool) (timerOk ledOk : Bool) (n : Nat)
    (failAt : Nat → Bool) (fuel : Nat) : List Event :=
  let _ : Bool := dbgFails
  Event.debugStatus 1 ::
    (if ledOk && timerOk then (blink_all_leds failAt n fuel RunState.init).trace
     else [])

/-- `alloc_error_handler`: no debug emission; probes the two drivers and, if
both handles were obtained, runs `cycle_all_leds`; otherwise only the idle
`loop {}` follows.  The returned list is the trace after `fuel` loop
iterations. -/
def alloc_error_handler (timerOk ledOk : Bool) (n : Nat)
    (failAt : Nat → Bool) (fuel : Nat) : List Event :=
  if ledOk && timerOk then (cycle_all_leds failAt n fuel RunState.init).trace
  else []

/-! ## Pure descriptions of the traces (for the characterization lemmas) -/

/-- The event sequence of one `blink_all_leds` cycle, as the spec describes
it: N activations in index order, one 100 ms sleep, N deactivations in the
same order, one more 100 ms sleep. -/
def blinkSpecCycle (n : Nat) : List Event :=
  (List.range n).map Event.activate ++ [Event.sleep 100]
    ++ (List.range n).map Event.deactivate ++ [Event.sleep 100]

/-- The event sequence of one `cycle_all_leds` pass as the code performs it:
for each unit in index order, activate, sleep 100 ms, deactivate — with no
sleep between the deactivation and the next unit's activation. -/
def cycleCodePass (n : Nat) : List Event :=
  (List.range n).flatMap fun u =>
    [Event.activate u, Event.sleep 100, Event.deactivate u]

/-- The event sequence of one `cycle_all_leds` pass as claim C1 states it:
for each unit, activate, sleep, deactivate, sleep. -/
def cycleClaimedPass (n : Nat) : List Event :=
  (List.range n).flatMap fun u =>
    [Event.activate u, Event.sleep 100, Event.deactivate u, Event.sleep 100]

/-- `k` repetitions of a cycle trace. -/
def repTrace (c : List Event) : Nat → List Event
  | 0 => []
  | k + 1 => c ++ repTrace c k

/-! ## Characterization lemmas -/

theorem blinkOnPass_trace (failAt : Nat → Bool) (leds : List Nat) (s : RunState) :
    (blinkOnPass failAt leds s).trace = s.trace ++ leds.map Event.activate := by
  induction leds generalizing s with
  | nil => simp [blinkOnPass]
  | cons led rest ih => simp [blinkOnPass, emit, ih]

theorem blinkOffPass_trace (failAt : Nat → Bool) (leds : List Nat) (s : RunState) :
    (blinkOffPass failAt leds s).trace = s.trace ++ leds.map Event.deactivate := by
  induction leds generalizing s with
  | nil => simp [blinkOffPass]
  | cons led rest ih => simp [blinkOffPass, emit, ih]

theorem blinkCycleRun_trace (failAt : Nat → Bool) (n : Nat) (s : RunState) :
    (blinkCycleRun failAt n s).trace = s.trace ++ blinkSpecCycle n := by
  simp [blinkCycleRun, emit, blinkOnPass_trace, blinkOffPass_trace, ledsAll,
    blinkSpecCycle]

theorem blink_all_leds_trace (failAt : Nat → Bool) (n fuel : Nat) (s : RunState) :
    (blink_all_leds failAt n fuel s).trace = s.trace ++ repTrace (blinkSpecCycle n) fuel := by
  induction fuel generalizing s with
  | zero => simp [blink_all_leds, repTrace]
  | succ k ih =>
      simp [blink_all_leds, repTrace, ih, blinkCycleRun_trace]

theorem cycleUnitRun_trace (failAt : Nat → Bool) (led : Nat) (s : RunState) :
    (cycleUnitRun failAt led s).trace =
      s.trace ++ [Event.activate led, Event.sleep 100, Event.deactivate led] := by
  simp [cycleUnitRun, emit]

theorem cyclePassRun_trace (failAt : Nat → Bool) (leds : List Nat) (s : RunState) :
    (cyclePassRun failAt leds s).trace =
      s.trace ++ leds.flatMap (fun u =>
        [Event.activate u, Event.sleep 100, Event.deactivate u]) := by
  induction leds generalizing s with
  | nil => simp [cyclePassRun]
  | cons led rest ih => simp [cyclePassRun, ih, cycleUnitRun_trace]

theorem cycle_all_leds_trace (failAt : Nat → Bool) (n fuel : Nat) (s : RunState) :
    (cycle_all_leds failAt n fuel s).trace = s.trace ++ repTrace (cycleCodePass n) fuel := by
  induction fuel generalizing s with
  | zero => simp [cycle_all_leds, repTrace]
  | succ k ih =>
      simp [cycle_all_leds, repTrace, ih, cyclePassRun_trace, ledsAll, cycleCodePass]

/-! ## The LED driver binding, from `src/apis/leds/src/lib.rs` -/

/-- Modelled from the spec: the categorized errors the transport can report
("no such driver", "no such command", "invalid unit index", "busy", …),
plus the mismatched-variant error of the platform's result conversion. -/
inductive ErrorCode where
  | FAIL
  | BUSY
  | INVAL
  | NOSUPPORT
  | NODEVICE
  | BADRVAL
deriving DecidableEq, Repr

/-- A fixed-shape command at the syscall boundary: driver identity, command
identity, and two arguments. -/
structure Command where
  driver_num : Nat
  command_num : Nat
  arg0 : Nat
  arg1 : Nat
deriving DecidableEq, Repr

/-- Modelled from the spec: the raw outcome of the command-issue primitive —
a plain success, a success carrying a 32-bit value, or a categorized
failure. -/
inductive CommandReturn where
  | success
  | success_u32 (value : Nat)
  | failure (e : ErrorCode)
deriving DecidableEq, Repr

/-- Modelled from the spec: the underlying syscall transport, an opaque
environment mapping each issued command to its raw outcome. -/
def Transport : Type := Command → CommandReturn

/-- Modelled from the spec: `S::command(driver, cmd, arg0, arg1)` — the
capability's command-issuing primitive.  Returns the transport's raw
outcome together with the (one-element) log of commands this call issued. -/
def Syscalls.command (tr : Transport) (d c a0 a1 : Nat) : CommandReturn × List Command :=
  (tr ⟨d, c, a0, a1⟩, [⟨d, c, a0, a1⟩])

/-- Modelled from the spec: `CommandReturn::to_result::<u32, ErrorCode>` —
interprets the raw outcome as `Result<u32, ErrorCode>`: a value-carrying
success yields that value, a failure yields its error code unchanged, and a
variant mismatch yields `BADRVAL`. -/
def to_result_u32 : CommandReturn → Except ErrorCode Nat
  | CommandReturn.success_u32 v => Except.ok v
  | CommandReturn.failure e => Except.error e
  | CommandReturn.success => Except.error ErrorCode.BADRVAL

/-- Modelled from the spec: `CommandReturn::to_result::<(), ErrorCode>` —
interprets the raw outcome as `Result<(), ErrorCode>`: a plain success
yields `()`, a failure yields its error code unchanged, and a variant
mismatch yields `BADRVAL`. -/
def to_result_unit : CommandReturn → Except ErrorCode Unit
  | CommandReturn.success => Except.ok ()
  | CommandReturn.failure e => Except.error e
  | CommandReturn.success_u32 _ => Except.error ErrorCode.BADRVAL

/-- `const DRIVER_ID: u32 = 2;` -/
def DRIVER_ID : Nat := 2

/-- `const LEDS_COUNT: u32 = 0;` -/
def LEDS_COUNT : Nat := 0

/-- `const LED_ON: u32 = 1;` -/
def LED_ON : Nat := 1

/-- `const LED_OFF: u32 = 2;` -/
def LED_OFF : Nat := 2

/-- `const LED_TOGGLE: u32 = 3;` -/
def LED_TOGGLE : Nat := 3

/-- `Leds::count()`: `S::command(DRIVER_ID, LEDS_COUNT, 0, 0).to_result()`.
The pair is (typed result, log of commands issued by this call). -/
def Leds.count (tr : Transport) : Except ErrorCode Nat × List Command :=
  let p := Syscalls.command tr DRIVER_ID LEDS_COUNT 0 0
  (to_result_u32 p.1, p.2)

/-- `Leds::on(led)`: `S::command(DRIVER_ID, LED_ON, led, 0).to_result()`. -/
def Leds.on (tr : Transport) (led : Nat) : Except ErrorCode Unit × List Command :=
  let p := Syscalls.command tr DRIVER_ID LED_ON led 0
  (to_result_unit p.1, p.2)

/-- `Leds::off(led)`: `S::command(DRIVER_ID, LED_OFF, led, 0).to_result()`. -/
def Leds.off (tr : Transport) (led : Nat) : Except ErrorCode Unit × List Command :=
  let p := Syscalls.command tr DRIVER_ID LED_OFF led 0
  (to_result_unit p.1, p.2)

/-- `Leds::toggle(led)`: `S::command(DRIVER_ID, LED_TOGGLE, led, 0).to_result()`. -/
def Leds.toggle (tr : Transport) (led : Nat) : Except ErrorCode Unit × List Command :=
  let p := Syscalls.command tr DRIVER_ID LED_TOGGLE led 0
  (to_result_unit p.1, p.2)

/-- Modelled from the spec: a kernel on the far side of the command channel
with `numLeds` LEDs — it validates the unit index (out of range yields a
failure result `INVAL`), answers `count` with the number of LEDs, and
rejects unknown drivers and commands. -/
def kernelTransport (numLeds : Nat) : Transport := fun c =>
  if c.driver_num = DRIVER_ID then
    if c.command_num = LEDS_COUNT then CommandReturn.success_u32 numLeds
    else if c.command_num = LED_ON || c.command_num = LED_OFF
        || c.command_num = LED_TOGGLE then
      if c.arg0 < numLeds then CommandReturn.success
      else CommandReturn.failure ErrorCode.INVAL
    else CommandReturn.failure ErrorCode.NOSUPPORT
  else CommandReturn.failure ErrorCode.NODEVICE

/-- Modelled from the spec: a transport with the LED driver absent — every
command fails with `NODEVICE`. -/
def absentTransport : Transport := fun _ => CommandReturn.failure ErrorCode.NODEVICE

/-! ## Further helper lemmas -/

theorem repTrace_succ_append (c : List Event) (k : Nat) :
    repTrace c (k + 1) = repTrace c k ++ c := by
  induction k with
  | zero => simp [repTrace]
  | succ m ih => simp [repTrace] at ih ⊢; rw [ih]

theorem cycleCodePass_all_peripheral (n : Nat) :
    (cycleCodePass n).all Event.isPeripheralOp = true := by
  rw [List.all_eq_true]
  intro e he
  simp only [cycleCodePass, List.mem_flatMap] at he
  obtain ⟨u, hu, he⟩ := he
  simp only [List.mem_cons, List.mem_singleton, List.not_mem_nil, or_false] at he
  rcases he with rfl | rfl | rfl <;> rfl

theorem repTrace_all (c : List Event) (p : Event → Bool) (h : c.all p = true) :
    ∀ k, (repTrace c k).all p = true := by
  intro k
  induction k with
  | zero => simp [repTrace]
  | succ m ih => simp [repTrace, List.all_append, h, ih]

/-! ## Claims -/

/-- C1 counterexample: the claim says that inside one pass of the
sequential-cycle loop every deactivation is followed by a sleep before the
next unit's activation (activate, sleep, deactivate, sleep per unit).  On
the code, with 2 units and one pass, the trace is
activate 0, sleep, deactivate 0, activate 1, sleep, deactivate 1 — the
deactivation of unit 0 is immediately followed by unit 1's activation, so
the trace differs from the claimed one. -/
theorem cycle_claimed_pass_cex :
    (cycle_all_leds (fun _ => false) 2 1 RunState.init).trace ≠ cycleClaimedPass 2 := by
  decide

/-- C1 (amended): in the sequential-cycle loop, for every number of known
units N, every pass issues, for unit 0, then unit 1, …, then unit N−1, the
steps activate the unit, sleep 100 time-units, deactivate the unit — with no
sleep between a deactivation and the next unit's activation — and then wraps
back to unit 0 for the next pass; this holds for every failure oracle. -/
theorem cycle_all_leds_pass_shape :
    ∀ (failAt : Nat → Bool) (n fuel : Nat),
      (cycle_all_leds failAt n fuel RunState.init).trace =
        repTrace (cycleCodePass n) fuel := by
  intro failAt n fuel
  simp [cycle_all_leds_trace, RunState.init]

/-- C2: in the simultaneous-blink loop, for every N, each iteration of the
infinite loop issues exactly N activations in index order, one sleep of 100
time-units, N deactivations in the same order, and one more sleep — the
trace after `fuel` iterations is exactly `fuel` repetitions of that one
cycle, so every cycle equals the first; and for N = 3 the cycle is
activate 0, activate 1, activate 2, sleep 100, deactivate 0, deactivate 1,
deactivate 2, sleep 100. -/
theorem blink_all_leds_cycle_shape :
    (∀ (failAt : Nat → Bool) (n fuel : Nat),
        (blink_all_leds failAt n fuel RunState.init).trace =
          repTrace (blinkSpecCycle n) fuel) ∧
      blinkSpecCycle 3 =
        [Event.activate 0, Event.activate 1, Event.activate 2, Event.sleep 100,
          Event.deactivate 0, Event.deactivate 1, Event.deactivate 2,
          Event.sleep 100] := by
  constructor
  · intro failAt n fuel
    simp [blink_all_leds_trace, RunState.init]
  · decide

/-- C7: inside either diagnostic loop, failures of individual operations are
discarded: the trace is identical under every failure oracle (in particular
it equals the all-succeed trace), and a further loop iteration always
appends one full cycle regardless of the oracle — no error propagates,
terminates, or alters either loop. -/
theorem diagnostic_loops_discard_op_failures :
    ∀ (failAt failAt2 : Nat → Bool) (n fuel : Nat),
      (blink_all_leds failAt n fuel RunState.init).trace =
          (blink_all_leds failAt2 n fuel RunState.init).trace ∧
        (cycle_all_leds failAt n fuel RunState.init).trace =
          (cycle_all_leds failAt2 n fuel RunState.init).trace ∧
        (blink_all_leds failAt n (fuel + 1) RunState.init).trace =
          (blink_all_leds failAt n fuel RunState.init).trace ++ blinkSpecCycle n ∧
        (cycle_all_leds failAt n (fuel + 1) RunState.init).trace =
          (cycle_all_leds failAt n fuel RunState.init).trace ++ cycleCodePass n := by
  intro failAt failAt2 n fuel
  refine ⟨?_, ?_, ?_, ?_⟩ <;>
    simp [blink_all_leds_trace, cycle_all_leds_trace, RunState.init,
      repTrace_succ_append]

/-- C3: for both fault entry points, if the availability probe fails to
obtain the timer handle or the LED handle, no diagnostic loop is entered
and no activate/deactivate/toggle/sleep operation is ever issued, for any
number of loop iterations: the panic handler's trace is exactly the debug
status emission and the allocation-failure handler's trace is empty — the
process idles. -/
theorem probe_failure_no_peripheral_ops
    (dbgFails timerOk ledOk : Bool) (n : Nat) (failAt : Nat → Bool) (fuel : Nat)
    (h : timerOk = false ∨ ledOk = false) :
    panic_handler dbgFails timerOk ledOk n failAt fuel = [Event.debugStatus 1] ∧
      alloc_error_handler timerOk ledOk n failAt fuel = [] ∧
      (panic_handler dbgFails timerOk ledOk n failAt fuel).all
          (fun e => !e.isPeripheralOp) = true := by
  rcases h with h | h <;> subst h <;>
    simp [panic_handler, alloc_error_handler, Event.isPeripheralOp]

/-- Witness for C3: with the timer present but the LED driver absent,
5 known units and 3 loop iterations, the panic handler issues only the
debug status code and the allocation-failure handler issues nothing. -/
theorem probe_failure_no_peripheral_ops_witness :
    panic_handler false true false 5 (fun _ => false) 3 = [Event.debugStatus 1] ∧
      alloc_error_handler true false 5 (fun _ => false) 3 = [] ∧
      (panic_handler false true false 5 (fun _ => false) 3).all
          (fun e => !e.isPeripheralOp) = true :=
  probe_failure_no_peripheral_ops false true false 5 (fun _ => false) 3 (Or.inr rfl)

/-- C8: the panic entry point first emits the fixed debug status code — the
trace's head is the status emission for every probe outcome, every failure
oracle and every fuel, and the trace does not depend on whether that
emission itself failed — and the rest of the trace is the simultaneous
blink loop when both handles were obtained, and empty (idling) otherwise. -/
theorem panic_handler_step_order :
    ∀ (dbgFails dbgFails2 timerOk ledOk : Bool) (n : Nat) (failAt : Nat → Bool)
      (fuel : Nat),
      panic_handler dbgFails timerOk ledOk n failAt fuel =
          Event.debugStatus 1 ::
            (if ledOk && timerOk then repTrace (blinkSpecCycle n) fuel else []) ∧
        panic_handler dbgFails timerOk ledOk n failAt fuel =
          panic_handler dbgFails2 timerOk ledOk n failAt fuel := by
  intro dbgFails dbgFails2 timerOk ledOk n failAt fuel
  cases h : ledOk && timerOk <;>
    simp [panic_handler, h, blink_all_leds_trace, RunState.init]

/-- C10: the status code the panic entry point emits is exactly 1 (it is
the trace's first event in all cases), while the allocation-failure entry
point emits no debug status at all: its whole trace consists of peripheral
operations, and equals the sequential-cycle loop's trace when both handles
were obtained and is empty otherwise. -/
theorem panic_status_code_one_alloc_silent :
    ∀ (dbgFails timerOk ledOk : Bool) (n : Nat) (failAt : Nat → Bool) (fuel : Nat),
      (panic_handler dbgFails timerOk ledOk n failAt fuel).head? =
          some (Event.debugStatus 1) ∧
        alloc_error_handler timerOk ledOk n failAt fuel =
          (if ledOk && timerOk then repTrace (cycleCodePass n) fuel else []) ∧
        (alloc_error_handler timerOk ledOk n failAt fuel).all
          Event.isPeripheralOp = true := by
  intro dbgFails timerOk ledOk n failAt fuel
  refine ⟨by simp [panic_handler], ?_, ?_⟩ <;>
    cases h : ledOk && timerOk <;>
      simp [alloc_error_handler, h, cycle_all_leds_trace, RunState.init,
        repTrace_all _ _ (cycleCodePass_all_peripheral n)]

/-- C4: each public LED operation issues its underlying command exactly once
(its command log is that single command and nothing else), performs no
local validation, retry or buffering, and its result is exactly the typed
interpretation (`to_result`) of the transport's raw outcome for that one
command — for every transport and every unit index. -/
theorem leds_ops_single_command_pass_through :
    ∀ (tr : Transport) (led : Nat),
      Leds.count tr =
          (to_result_u32 (tr ⟨DRIVER_ID, LEDS_COUNT, 0, 0⟩),
            [⟨DRIVER_ID, LEDS_COUNT, 0, 0⟩]) ∧
        Leds.on tr led =
          (to_result_unit (tr ⟨DRIVER_ID, LED_ON, led, 0⟩),
            [⟨DRIVER_ID, LED_ON, led, 0⟩]) ∧
        Leds.off tr led =
          (to_result_unit (tr ⟨DRIVER_ID, LED_OFF, led, 0⟩),
            [⟨DRIVER_ID, LED_OFF, led, 0⟩]) ∧
        Leds.toggle tr led =
          (to_result_unit (tr ⟨DRIVER_ID, LED_TOGGLE, led, 0⟩),
            [⟨DRIVER_ID, LED_TOGGLE, led, 0⟩]) := by
  intro tr led
  refine ⟨rfl, rfl, rfl, rfl⟩

/-- C5: every LED operation uses the fixed driver identity 2 and its fixed
command identity — count 0, on 1, off 2, toggle 3 — the unit index is the
first command argument and the second argument is always 0, for every
transport and unit index. -/
theorem leds_fixed_identities :
    DRIVER_ID = 2 ∧ LEDS_COUNT = 0 ∧ LED_ON = 1 ∧ LED_OFF = 2 ∧ LED_TOGGLE = 3 ∧
      ∀ (tr : Transport) (led : Nat),
        (Leds.count tr).2 = [⟨2, 0, 0, 0⟩] ∧
          (Leds.on tr led).2 = [⟨2, 1, led, 0⟩] ∧
          (Leds.off tr led).2 = [⟨2, 2, led, 0⟩] ∧
          (Leds.toggle tr led).2 = [⟨2, 3, led, 0⟩] := by
  refine ⟨rfl, rfl, rfl, rfl, rfl, ?_⟩
  intro tr led
  refine ⟨rfl, rfl, rfl, rfl⟩

/-- C6: for every out-of-range unit index (index ≥ the far side's unit
count), activate, deactivate and toggle return the error result the far
side of the command channel reports (`INVAL`); the command is still issued
(exactly one command in the log, so it is not a silent local no-op and no
local range check short-circuits it), and the functions are total, so no
panic occurs. -/
theorem leds_out_of_range_far_side_error (numLeds led : Nat) (h : numLeds ≤ led) :
    (Leds.on (kernelTransport numLeds) led).1 = Except.error ErrorCode.INVAL ∧
      (Leds.off (kernelTransport numLeds) led).1 = Except.error ErrorCode.INVAL ∧
      (Leds.toggle (kernelTransport numLeds) led).1 = Except.error ErrorCode.INVAL ∧
      (Leds.on (kernelTransport numLeds) led).2 = [⟨DRIVER_ID, LED_ON, led, 0⟩] ∧
      (Leds.off (kernelTransport numLeds) led).2 = [⟨DRIVER_ID, LED_OFF, led, 0⟩] ∧
      (Leds.toggle (kernelTransport numLeds) led).2 =
        [⟨DRIVER_ID, LED_TOGGLE, led, 0⟩] := by
  have hlt : ¬ led < numLeds := Nat.not_lt.mpr h
  refine ⟨?_, ?_, ?_, rfl, rfl, rfl⟩ <;>
    simp [Leds.on, Leds.off, Leds.toggle, Syscalls.command, kernelTransport,
      to_result_unit, DRIVER_ID, LEDS_COUNT, LED_ON, LED_OFF, LED_TOGGLE, hlt]

/-- Witness for C6: against a far side with 2 units, the out-of-range index
5 makes on/off/toggle return the far side's `INVAL` error while still
issuing their single command. -/
theorem leds_out_of_range_far_side_error_witness :
    (Leds.on (kernelTransport 2) 5).1 = Except.error ErrorCode.INVAL ∧
      (Leds.off (kernelTransport 2) 5).1 = Except.error ErrorCode.INVAL ∧
      (Leds.toggle (kernelTransport 2) 5).1 = Except.error ErrorCode.INVAL ∧
      (Leds.on (kernelTransport 2) 5).2 = [⟨DRIVER_ID, LED_ON, 5, 0⟩] ∧
      (Leds.off (kernelTransport 2) 5).2 = [⟨DRIVER_ID, LED_OFF, 5, 0⟩] ∧
      (Leds.toggle (kernelTransport 2) 5).2 = [⟨DRIVER_ID, LED_TOGGLE, 5, 0⟩] :=
  leds_out_of_range_far_side_error 2 5 (by decide)

/-- C9: `count` returns `Ok v` exactly when the transport answers the count
command with a value-carrying success (so a present driver with zero units
yields `Ok 0`), returns `Err e` with the transport's own error when the
transport reports failure (driver absent), and the two variants are never
conflated: `Ok v` never equals `Err e`. -/
theorem count_ok_zero_vs_driver_absent :
    ∀ tr : Transport,
      (∀ v, tr ⟨DRIVER_ID, LEDS_COUNT, 0, 0⟩ = CommandReturn.success_u32 v →
          (Leds.count tr).1 = Except.ok v) ∧
        (∀ e, tr ⟨DRIVER_ID, LEDS_COUNT, 0, 0⟩ = CommandReturn.failure e →
          (Leds.count tr).1 = Except.error e) ∧
        (∀ (v : Nat) (e : ErrorCode),
          (Except.ok v : Except ErrorCode Nat) ≠ Except.error e) := by
  intro tr
  refine ⟨?_, ?_, ?_⟩
  · intro v hv
    simp [Leds.count, Syscalls.command, hv, to_result_u32]
  · intro e he
    simp [Leds.count, Syscalls.command, he, to_result_u32]
  · intro v e
    simp

/-- Witness for C9: a far side with a present driver and zero units makes
`count` return `Ok 0`, while an absent driver makes it return
`Err NODEVICE` — two different variants. -/
theorem count_ok_zero_vs_driver_absent_witness :
    (Leds.count (kernelTransport 0)).1 = Except.ok 0 ∧
      (Leds.count absentTransport).1 = Except.error ErrorCode.NODEVICE :=
  ⟨(count_ok_zero_vs_driver_absent (kernelTransport 0)).1 0 rfl,
    (count_ok_zero_vs_driver_absent absentTransport).2.1 ErrorCode.NODEVICE rfl⟩
